import Mathlib

/-!
Shallow embedding of the Socket.IO room server in `src/server/server.js` of
the AR Mine Safety Navigation System.

The server keeps a `Map` from 4-digit room codes to room records
(`displaySocket`, `controllerSocket`, `annotations`, `createdAt`) and mutates
it in event handlers (`create-room`, `join-room`, `reconnect-room`,
`add-danger-zone`, `remove-annotation`, `clear-annotations`, `disconnect`, ...).
Here the `Map` is an association list with first-match lookup, each handler is
a pure state transformer returning the new store, the acknowledgment passed to
the socket.io callback (when the handler takes one), and the list of
`io.to(...).emit(...)` calls it performs, in order.  `Math.random()`-driven
code generation is modelled by a stream of draws, and `Date.now()` /
`new Date().toISOString()` by explicit clock parameters.
-/

namespace ARMine

/-- A 3-component position vector, as sent by the controller client
(`position`, `start`, `end` fields of annotation events). -/
structure Vec3 where
  x : Int
  y : Int
  z : Int
deriving DecidableEq, Repr

/-- A 2-component vertex of a restricted-zone polygon. -/
structure Vec2 where
  x : Int
  z : Int
deriving DecidableEq, Repr

/-- The type-specific payload of an annotation, mirroring the four object
shapes built by `add-danger-zone`, `add-arrow`, `add-incident` and
`add-restricted-zone` (the JS `type` field becomes the constructor tag). -/
inductive AnnotationData where
  | danger (position : Vec3) (radius : Int) (label : String)
  | arrow (start stop : Vec3) (label : String)
  | incident (position : Vec3) (date : String) (description : String) (severity : String)
  | restricted (vertices : List Vec2) (active : Bool)
deriving DecidableEq, Repr

/-- An annotation as stored in `room.annotations`: an `id` string
(`danger_${Date.now()}` etc.), a `createdAt` ISO timestamp, and the
type-specific fields. -/
structure Annotation where
  id : String
  createdAt : String
  data : AnnotationData
deriving DecidableEq, Repr

/-- A room record as created by the `create-room` handler. -/
structure Room where
  displaySocket : Option String
  controllerSocket : Option String
  annotations : List Annotation
  createdAt : String
deriving DecidableEq, Repr

/-- The Room Store `rooms : Map<string, room>`, as an association list from
room codes to rooms with first-match lookup. -/
abbrev RoomStore := List (String × Room)

/-- Lookup `rooms.get(code)`. -/
def storeGet : RoomStore → String → Option Room
  | [], _ => none
  | (c, r) :: rest, code => if c = code then some r else storeGet rest code

/-- Update `rooms.set(code, room)`: replace the binding of an existing key, or append
a new binding. -/
def storeSet : RoomStore → String → Room → RoomStore
  | [], code, r => [(code, r)]
  | (c, r0) :: rest, code, r =>
    if c = code then (code, r) :: rest else (c, r0) :: storeSet rest code r

/-- Membership test `rooms.has(code)`. -/
def storeHas (s : RoomStore) (code : String) : Bool :=
  (storeGet s code).isSome

/-- The target of an `emit`: `io.to(socketId)` (the argument may be JS `null`
when the code passes a vacant slot) or `io.to(roomCode)`. -/
inductive Target where
  | sock (sid : Option String)
  | room (code : String)
deriving DecidableEq, Repr

/-- The payload attached to an emitted event: none, a full annotation
(`annotation-added`), or an `{id}` object (`annotation-removed`). -/
inductive Payload where
  | empty
  | ann (a : Annotation)
  | annId (id : String)
deriving DecidableEq, Repr

/-- One `io.to(target).emit(event, payload)` call. -/
structure Emit where
  target : Target
  event : String
  payload : Payload
deriving DecidableEq, Repr

/-- The object passed to a socket.io acknowledgment callback.  Each JS ack is
an object literal with a `success` flag and a subset of the remaining fields;
absent fields are `none`. -/
structure Ack where
  success : Bool
  error : Option String := none
  annotations : Option (List Annotation) := none
  hasController : Option Bool := none
  roomCode : Option String := none
deriving DecidableEq, Repr

/-- JS `x || dflt` for an optional number field (`data.radius || 5`):
an absent field and the falsy number `0` both yield the default. -/
def jsOrInt (v : Option Int) (dflt : Int) : Int :=
  match v with
  | none => dflt
  | some n => if n = 0 then dflt else n

/-- JS `x || dflt` for an optional string field (`data.label || 'Danger Zone'`):
an absent field and the falsy empty string both yield the default. -/
def jsOrStr (v : Option String) (dflt : String) : String :=
  match v with
  | none => dflt
  | some t => if t = "" then dflt else t

/-- The body of `generateRoomCode`'s `do/while` loop, fuelled: draw
`Math.floor(1000 + Math.random() * 9000)` (the draw stream entry reduced
`% 9000` models `Math.random()`'s value landing in `[0, 9000)`), convert it
to a string, and re-draw while `rooms.has(code)`.  `none` means the fuel ran
out before a free code was drawn; the JS loop has no such bound. -/
def genCodeAux (s : RoomStore) (draws : Nat → Nat) : Nat → Nat → Option String
  | 0, _ => none
  | fuel + 1, i =>
    let code := Nat.repr (1000 + draws i % 9000)
    if storeHas s code then genCodeAux s draws fuel (i + 1) else some code

/-- The function `generateRoomCode()`, started at the first draw. -/
def generateRoomCode (s : RoomStore) (draws : Nat → Nat) (fuel : Nat) : Option String :=
  genCodeAux s draws fuel 0

/-- The `create-room` handler: allocate a code, store a fresh room bound to
the creating display socket, ack `{success:true, roomCode}`.  `none` when the
fuelled allocator gave up. -/
def createRoom (s : RoomStore) (sid : String) (draws : Nat → Nat) (fuel : Nat)
    (nowIso : String) : Option (RoomStore × Ack) :=
  match generateRoomCode s draws fuel with
  | none => none
  | some roomCode =>
    some (storeSet s roomCode
            { displaySocket := some sid, controllerSocket := none,
              annotations := [], createdAt := nowIso },
          { success := true, roomCode := some roomCode })

/-- The `join-room` handler: unknown code acks `{success:false, error:'Room
not found'}`; otherwise the controller slot is overwritten with the joiner,
`controller-connected` is emitted to the (possibly vacant) display socket, and
the ack carries the room's annotations. -/
def joinRoom (s : RoomStore) (sid : String) (roomCode : String) :
    RoomStore × Ack × List Emit :=
  match storeGet s roomCode with
  | none => (s, { success := false, error := some "Room not found" }, [])
  | some room =>
    (storeSet s roomCode { room with controllerSocket := some sid },
     { success := true, annotations := some room.annotations },
     [⟨Target.sock room.displaySocket, "controller-connected", Payload.empty⟩])

/-- The payload of an `add-danger-zone` event. -/
structure DangerEvent where
  roomId : String
  position : Vec3
  radius : Option Int
  label : Option String
deriving Repr

/-- The `add-danger-zone` handler: on an existing room, append a `danger`
annotation with id `danger_${Date.now()}`, radius `data.radius || 5`, label
`data.label || 'Danger Zone'`, and broadcast `annotation-added` to the room.
An unknown room is ignored. -/
def addDangerZone (s : RoomStore) (d : DangerEvent) (nowMs : Nat) (nowIso : String) :
    RoomStore × List Emit :=
  match storeGet s d.roomId with
  | none => (s, [])
  | some room =>
    let a : Annotation :=
      { id := "danger_" ++ Nat.repr nowMs,
        createdAt := nowIso,
        data := AnnotationData.danger d.position (jsOrInt d.radius 5)
                  (jsOrStr d.label "Danger Zone") }
    (storeSet s d.roomId { room with annotations := room.annotations ++ [a] },
     [⟨Target.room d.roomId, "annotation-added", Payload.ann a⟩])

/-- The `remove-annotation` handler: on an existing room, keep exactly the
annotations whose id differs from `data.annotationId` and broadcast
`annotation-removed` with that id to the room. -/
def removeAnnotation (s : RoomStore) (roomId annotationId : String) :
    RoomStore × List Emit :=
  match storeGet s roomId with
  | none => (s, [])
  | some room =>
    (storeSet s roomId
       { room with annotations := room.annotations.filter (fun a => a.id ≠ annotationId) },
     [⟨Target.room roomId, "annotation-removed", Payload.annId annotationId⟩])

/-- The `clear-annotations` handler: on an existing room, replace the
annotation list by `[]` and broadcast `annotations-cleared` to the room. -/
def clearAnnotations (s : RoomStore) (roomId : String) : RoomStore × List Emit :=
  match storeGet s roomId with
  | none => (s, [])
  | some room =>
    (storeSet s roomId { room with annotations := [] },
     [⟨Target.room roomId, "annotations-cleared", Payload.empty⟩])

/-- The `disconnect` handler, given the disconnecting socket's `roomId` and
`deviceType` properties: clear the matching role slot of the room (when both
are set and the room exists) and notify the opposite role if it is bound. -/
def disconnect (s : RoomStore) (roomId : Option String) (deviceType : Option String) :
    RoomStore × List Emit :=
  match roomId with
  | none => (s, [])
  | some rid =>
    match storeGet s rid with
    | none => (s, [])
    | some room =>
      if deviceType = some "display" then
        (storeSet s rid { room with displaySocket := none },
         match room.controllerSocket with
         | some c => [⟨Target.sock (some c), "display-disconnected", Payload.empty⟩]
         | none => [])
      else if deviceType = some "controller" then
        (storeSet s rid { room with controllerSocket := none },
         match room.displaySocket with
         | some d => [⟨Target.sock (some d), "controller-disconnected", Payload.empty⟩]
         | none => [])
      else (s, [])

/-- The `reconnect-room` handler: rebind the requested role slot when the room
exists and that slot is vacant; ack `'Device type already connected'` when the
slot test fails (or the device type matches neither branch), and
`'Room not found'` when the room does not exist. -/
def reconnectRoom (s : RoomStore) (sid : String) (roomId deviceType : String) :
    RoomStore × Ack × List Emit :=
  match storeGet s roomId with
  | none => (s, { success := false, error := some "Room not found" }, [])
  | some room =>
    if deviceType = "display" && room.displaySocket.isNone then
      (storeSet s roomId { room with displaySocket := some sid },
       { success := true, annotations := some room.annotations,
         hasController := some room.controllerSocket.isSome },
       [])
    else if deviceType = "controller" && room.controllerSocket.isNone then
      (storeSet s roomId { room with controllerSocket := some sid },
       { success := true, annotations := some room.annotations },
       match room.displaySocket with
       | some d => [⟨Target.sock (some d), "controller-connected", Payload.empty⟩]
       | none => [])
    else
      (s, { success := false, error := some "Device type already connected" }, [])

/-! ### Store lemmas -/

theorem storeGet_storeSet_self (s : RoomStore) (code : String) (r : Room) :
    storeGet (storeSet s code r) code = some r := by
  induction s with
  | nil => simp [storeSet, storeGet]
  | cons hd tl ih =>
    obtain ⟨c, r0⟩ := hd
    by_cases h : c = code <;> simp [storeSet, storeGet, h, ih]

theorem storeGet_storeSet_ne (s : RoomStore) (code c' : String) (r : Room)
    (h : c' ≠ code) : storeGet (storeSet s code r) c' = storeGet s c' := by
  induction s with
  | nil => simp [storeSet, storeGet, Ne.symm h]
  | cons hd tl ih =>
    obtain ⟨c, r0⟩ := hd
    by_cases hc : c = code
    · subst hc
      simp [storeSet, storeGet, Ne.symm h]
    · simp only [storeSet, if_neg hc, storeGet]
      by_cases hc' : c = c' <;> simp [hc', ih]

/-! ### Decimal representation of room codes

`generateRoomCode` stores `Math.floor(1000 + Math.random() * 9000).toString()`;
the lemmas below pin down `Nat.repr` on the positives via `Nat.digits`. -/

theorem toDigitsCore_eq_digits (fuel : Nat) :
    ∀ (n : Nat) (ds : List Char), 0 < n → n ≤ fuel →
      Nat.toDigitsCore 10 fuel n ds =
        ((Nat.digits 10 n).map Nat.digitChar).reverse ++ ds := by
  induction fuel with
  | zero => intro n ds hn hf; omega
  | succ fuel ih =>
    intro n ds hn hf
    by_cases h0 : n / 10 = 0
    · have hlt : n < 10 := by omega
      rw [Nat.toDigitsCore]
      simp [h0, Nat.digits_of_lt 10 n (by omega) hlt, Nat.mod_eq_of_lt hlt]
    · have hdiv : n / 10 ≤ fuel := by
        have := Nat.div_lt_self hn (by norm_num : 1 < 10)
        omega
      rw [Nat.toDigitsCore]
      simp only [h0, if_false]
      rw [ih (n / 10) _ (Nat.pos_of_ne_zero h0) hdiv,
        Nat.digits_def' (by norm_num : 1 < 10) hn]
      simp

theorem repr_eq_digits (n : Nat) (hn : 0 < n) :
    Nat.repr n = (((Nat.digits 10 n).map Nat.digitChar).reverse).asString := by
  unfold Nat.repr Nat.toDigits
  rw [toDigitsCore_eq_digits (n + 1) n [] hn (Nat.le_succ n), List.append_nil]

theorem repr_length_four (n : Nat) (h1 : 1000 ≤ n) (h2 : n ≤ 9999) :
    (Nat.repr n).length = 4 := by
  have hlog : Nat.log 10 n = 3 :=
    Nat.log_eq_of_pow_le_of_lt_pow (by norm_num; omega) (by norm_num; omega)
  rw [repr_eq_digits n (by omega)]
  simp [List.asString, String.length, Nat.digits_len 10 n (by norm_num) (by omega), hlog]

theorem digitChar_inj_lt10 :
    ∀ a < 10, ∀ b < 10, Nat.digitChar a = Nat.digitChar b → a = b := by decide

theorem map_digitChar_inj :
    ∀ (l1 l2 : List Nat), (∀ x ∈ l1, x < 10) → (∀ x ∈ l2, x < 10) →
      l1.map Nat.digitChar = l2.map Nat.digitChar → l1 = l2
  | [], [], _, _, _ => rfl
  | [], _ :: _, _, _, h => by simp at h
  | _ :: _, [], _, _, h => by simp at h
  | a :: l1, b :: l2, h1, h2, h => by
    simp only [List.map_cons, List.cons.injEq] at h
    have hab : a = b :=
      digitChar_inj_lt10 a (h1 a (by simp)) b (h2 b (by simp)) h.1
    have htl : l1 = l2 :=
      map_digitChar_inj l1 l2 (fun x hx => h1 x (by simp [hx]))
        (fun x hx => h2 x (by simp [hx])) h.2
    rw [hab, htl]

theorem repr_inj_pos {m n : Nat} (hm : 0 < m) (hn : 0 < n)
    (h : Nat.repr m = Nat.repr n) : m = n := by
  rw [repr_eq_digits m hm, repr_eq_digits n hn] at h
  have h1 : ((Nat.digits 10 m).map Nat.digitChar).reverse =
      ((Nat.digits 10 n).map Nat.digitChar).reverse := by
    have := congrArg String.data h
    simpa [List.asString] using this
  have h2 : (Nat.digits 10 m).map Nat.digitChar = (Nat.digits 10 n).map Nat.digitChar :=
    List.reverse_injective h1
  have h3 : Nat.digits 10 m = Nat.digits 10 n :=
    map_digitChar_inj _ _ (fun x hx => Nat.digits_lt_base (by norm_num) hx)
      (fun x hx => Nat.digits_lt_base (by norm_num) hx) h2
  exact Nat.digits_inj_iff.mp h3

/-- If a store binding exists, `storeSet` with the identical room is the
identity on the store. -/
theorem storeSet_self (s : RoomStore) (c : String) (r : Room)
    (h : storeGet s c = some r) : storeSet s c r = s := by
  induction s with
  | nil => simp [storeGet] at h
  | cons hd tl ih =>
    obtain ⟨c0, r0⟩ := hd
    by_cases hc : c0 = c
    · subst hc
      simp only [storeGet, if_true, eq_self_iff_true, Option.some.injEq] at h
      simp [storeSet, h]
    · simp only [storeGet, if_neg hc] at h
      simp [storeSet, hc, ih h]

/-- An occupied code is a key of the store. -/
theorem mem_keys_of_storeHas (s : RoomStore) (code : String)
    (h : storeHas s code = true) : code ∈ s.map Prod.fst := by
  induction s with
  | nil => simp [storeHas, storeGet] at h
  | cons hd tl ih =>
    obtain ⟨c, r⟩ := hd
    by_cases hc : c = code
    · simp [hc]
    · simp only [storeHas, storeGet, if_neg hc] at h
      simp [ih h]

/-! ### `generateRoomCode` lemmas -/

/-- The 9000 candidate room-code strings `"1000"` .. `"9999"`. -/
def candidateCodes : List String :=
  (List.range 9000).map (fun d => Nat.repr (1000 + d))

theorem candidateCodes_nodup : candidateCodes.Nodup := by
  refine List.Nodup.map_on ?_ (List.nodup_range 9000)
  intro x _ y _ hxy
  have := repr_inj_pos (m := 1000 + x) (n := 1000 + y) (by omega) (by omega) hxy
  omega

theorem candidateCodes_length : candidateCodes.length = 9000 := by
  simp [candidateCodes]

/-- A store with fewer than 9000 bindings leaves some candidate code free. -/
theorem free_code_exists (s : RoomStore) (h : s.length < 9000) :
    ∃ d, d < 9000 ∧ storeHas s (Nat.repr (1000 + d)) = false := by
  by_contra hc
  push_neg at hc
  have hsub : candidateCodes ⊆ s.map Prod.fst := by
    intro c hcmem
    simp only [candidateCodes, List.mem_map, List.mem_range] at hcmem
    obtain ⟨d, hd, rfl⟩ := hcmem
    exact mem_keys_of_storeHas s _ (by
      cases hhas : storeHas s (Nat.repr (1000 + d)) with
      | false => exact absurd hhas (hc d hd)
      | true => rfl)
  have hle : candidateCodes.length ≤ (s.map Prod.fst).length :=
    (List.subperm_of_subset candidateCodes_nodup hsub).length_le
  rw [candidateCodes_length, List.length_map] at hle
  omega

/-- Any code the fuelled allocator returns is free in the store and is the
decimal representation of a number in `[1000, 9999]`. -/
theorem genCodeAux_spec (s : RoomStore) (draws : Nat → Nat) :
    ∀ (fuel i : Nat) (code : String), genCodeAux s draws fuel i = some code →
      storeHas s code = false ∧ code.length = 4 ∧
      ∃ n, 1000 ≤ n ∧ n ≤ 9999 ∧ code = Nat.repr n := by
  intro fuel
  induction fuel with
  | zero => intro i code h; simp [genCodeAux] at h
  | succ fuel ih =>
    intro i code h
    rw [genCodeAux] at h
    by_cases hhas : storeHas s (Nat.repr (1000 + draws i % 9000)) = true
    · rw [if_pos hhas] at h
      exact ih (i + 1) code h
    · rw [if_neg hhas] at h
      have hmod : draws i % 9000 < 9000 := Nat.mod_lt _ (by norm_num)
      cases h
      refine ⟨by simpa using hhas, repr_length_four _ (by omega) (by omega),
        1000 + draws i % 9000, by omega, by omega, rfl⟩

/-- If some draw within the fuel bound hits a free code, the allocator
returns a free code. -/
theorem genCodeAux_term (s : RoomStore) (draws : Nat → Nat) :
    ∀ (fuel i j : Nat), i ≤ j → j < i + fuel →
      storeHas s (Nat.repr (1000 + draws j % 9000)) = false →
      ∃ code, genCodeAux s draws fuel i = some code ∧ storeHas s code = false := by
  intro fuel
  induction fuel with
  | zero => intro i j hij hlt _; omega
  | succ fuel ih =>
    intro i j hij hlt hfree
    by_cases hhas : storeHas s (Nat.repr (1000 + draws i % 9000)) = true
    · have hne : i ≠ j := by
        intro he
        rw [he, hfree] at hhas
        exact Bool.false_ne_true hhas
      obtain ⟨code, hcode, hf⟩ := ih (i + 1) j (by omega) (by omega) hfree
      exact ⟨code, by rw [genCodeAux, if_pos hhas]; exact hcode, hf⟩
    · refine ⟨Nat.repr (1000 + draws i % 9000), ?_, by simpa using hhas⟩
      rw [genCodeAux, if_neg hhas]

/-- With every candidate code occupied, the allocator loops for ever: no
amount of fuel produces a code. -/
theorem genCodeAux_saturated (s : RoomStore) (draws : Nat → Nat)
    (hsat : ∀ d < 9000, storeHas s (Nat.repr (1000 + d)) = true) :
    ∀ fuel i, genCodeAux s draws fuel i = none := by
  intro fuel
  induction fuel with
  | zero => intro i; rfl
  | succ fuel ih =>
    intro i
    rw [genCodeAux, if_pos (hsat (draws i % 9000) (Nat.mod_lt _ (by norm_num)))]
    exact ih (i + 1)

/-- Unfolding of `join-room` on an existing room. -/
theorem joinRoom_some (s : RoomStore) (sid roomCode : String) (room : Room)
    (h : storeGet s roomCode = some room) :
    joinRoom s sid roomCode =
      (storeSet s roomCode { room with controllerSocket := some sid },
       { success := true, annotations := some room.annotations },
       [⟨Target.sock room.displaySocket, "controller-connected", Payload.empty⟩]) := by
  simp [joinRoom, h]

/-! ### Claim theorems -/

/-- Claim C1: a `join-room(code)` on an existing room always succeeds, acks
`{success:true, annotations}` with the room's annotation sequence, emits only
`controller-connected` to the display slot, and overwrites the controller
slot with the joining socket unconditionally — a later joiner silently
replaces an earlier binding, and no error is reported to anyone. -/
theorem joinRoom_existing_overwrites_controller
    (s : RoomStore) (sid sid2 roomCode : String) (room : Room)
    (h : storeGet s roomCode = some room) :
    joinRoom s sid roomCode =
      (storeSet s roomCode { room with controllerSocket := some sid },
       { success := true, annotations := some room.annotations },
       [⟨Target.sock room.displaySocket, "controller-connected", Payload.empty⟩]) ∧
    storeGet (joinRoom s sid roomCode).1 roomCode =
      some { room with controllerSocket := some sid } ∧
    storeGet (joinRoom (joinRoom s sid roomCode).1 sid2 roomCode).1 roomCode =
      some { room with controllerSocket := some sid2 } := by
  have h1 := joinRoom_some s sid roomCode room h
  have h2 : storeGet (joinRoom s sid roomCode).1 roomCode =
      some { room with controllerSocket := some sid } := by
    rw [h1]
    exact storeGet_storeSet_self ..
  have h3 := joinRoom_some (joinRoom s sid roomCode).1 sid2 roomCode _ h2
  refine ⟨h1, h2, ?_⟩
  rw [h3]
  exact storeGet_storeSet_self ..

/-- Witness for C1: in a room whose controller slot is already bound to
`"ctlOld"`, a join by `"ctlNew"` succeeds and replaces the binding. -/
theorem joinRoom_existing_overwrites_controller_witness :
    joinRoom [("1234", ⟨some "disp", some "ctlOld", [], "t0"⟩)] "ctlNew" "1234" =
      ([("1234", ⟨some "disp", some "ctlNew", [], "t0"⟩)],
       { success := true, annotations := some [] },
       [⟨Target.sock (some "disp"), "controller-connected", Payload.empty⟩]) ∧
    storeGet (joinRoom [("1234", ⟨some "disp", some "ctlOld", [], "t0"⟩)]
        "ctlNew" "1234").1 "1234" =
      some ⟨some "disp", some "ctlNew", [], "t0"⟩ :=
  ⟨(joinRoom_existing_overwrites_controller
      [("1234", ⟨some "disp", some "ctlOld", [], "t0"⟩)] "ctlNew" "x" "1234"
      ⟨some "disp", some "ctlOld", [], "t0"⟩ rfl).1,
   (joinRoom_existing_overwrites_controller
      [("1234", ⟨some "disp", some "ctlOld", [], "t0"⟩)] "ctlNew" "x" "1234"
      ⟨some "disp", some "ctlOld", [], "t0"⟩ rfl).2.1⟩

/-- Claim C3: `join-room` with a code absent from the Room Store acks exactly
`{success:false, error:'Room not found'}`, emits nothing, and returns the
store untouched (so every room's slots and annotations are unchanged); the
handler is a total function, so it never throws. -/
theorem joinRoom_unknown_code (s : RoomStore) (sid roomCode : String)
    (h : storeGet s roomCode = none) :
    joinRoom s sid roomCode =
      (s, { success := false, error := some "Room not found" }, []) := by
  simp [joinRoom, h]

/-- Witness for C3: joining code `"9999"` in a store holding only `"1234"`
fails with `Room not found` and leaves the store as it was. -/
theorem joinRoom_unknown_code_witness :
    joinRoom [("1234", ⟨some "disp", none, [], "t0"⟩)] "ctl" "9999" =
      ([("1234", ⟨some "disp", none, [], "t0"⟩)],
       { success := false, error := some "Room not found" }, []) :=
  joinRoom_unknown_code [("1234", ⟨some "disp", none, [], "t0"⟩)] "ctl" "9999" rfl

/-- Claim C2: `reconnect-room({roomId, deviceType})` with deviceType
`'display'` or `'controller'`: on an existing room with the named slot empty
it succeeds, binds the slot and returns the room's annotations (plus, for a
display, whether a controller is bound); with the slot occupied it fails with
`'Device type already connected'` and leaves the whole store unchanged; on an
unknown room it fails with `'Room not found'`, also leaving the store
unchanged. -/
theorem reconnectRoom_cases (s : RoomStore) (sid roomId : String) :
    (storeGet s roomId = none → ∀ dt,
      reconnectRoom s sid roomId dt =
        (s, { success := false, error := some "Room not found" }, [])) ∧
    (∀ room, storeGet s roomId = some room →
      (room.displaySocket = none →
        reconnectRoom s sid roomId "display" =
          (storeSet s roomId { room with displaySocket := some sid },
           { success := true, annotations := some room.annotations,
             hasController := some room.controllerSocket.isSome }, [])) ∧
      (∀ d0, room.displaySocket = some d0 →
        reconnectRoom s sid roomId "display" =
          (s, { success := false, error := some "Device type already connected" }, [])) ∧
      (room.controllerSocket = none →
        reconnectRoom s sid roomId "controller" =
          (storeSet s roomId { room with controllerSocket := some sid },
           { success := true, annotations := some room.annotations },
           match room.displaySocket with
           | some d => [⟨Target.sock (some d), "controller-connected", Payload.empty⟩]
           | none => [])) ∧
      (∀ c0, room.controllerSocket = some c0 →
        reconnectRoom s sid roomId "controller" =
          (s, { success := false, error := some "Device type already connected" }, []))) := by
  constructor
  · intro h dt
    simp [reconnectRoom, h]
  · intro room h
    refine ⟨?_, ?_, ?_, ?_⟩
    · intro hd
      simp [reconnectRoom, h, hd]
    · intro d0 hd
      simp [reconnectRoom, h, hd]
    · intro hc
      simp [reconnectRoom, h, hc]
    · intro c0 hc
      by_cases hd : room.displaySocket = none
      · simp [reconnectRoom, h, hc, hd]
      · obtain ⟨d0, hd0⟩ := Option.ne_none_iff_exists'.mp hd
        simp [reconnectRoom, h, hc, hd0]

/-- Witness for C2: all five branches on concrete stores — empty-slot
reconnects succeed and bind, occupied-slot reconnects fail with
`Device type already connected`, and an unknown room fails with
`Room not found`. -/
theorem reconnectRoom_cases_witness :
    reconnectRoom [("1111", ⟨none, none, [], "t"⟩)] "x" "1111" "display" =
      ([("1111", ⟨some "x", none, [], "t"⟩)],
       { success := true, annotations := some [], hasController := some false }, []) ∧
    reconnectRoom [("1111", ⟨none, none, [], "t"⟩)] "x" "1111" "controller" =
      ([("1111", ⟨none, some "x", [], "t"⟩)],
       { success := true, annotations := some [] }, []) ∧
    reconnectRoom [("2222", ⟨some "d0", some "c0", [], "t"⟩)] "x" "2222" "display" =
      ([("2222", ⟨some "d0", some "c0", [], "t"⟩)],
       { success := false, error := some "Device type already connected" }, []) ∧
    reconnectRoom [("2222", ⟨some "d0", some "c0", [], "t"⟩)] "x" "2222" "controller" =
      ([("2222", ⟨some "d0", some "c0", [], "t"⟩)],
       { success := false, error := some "Device type already connected" }, []) ∧
    reconnectRoom [("1111", ⟨none, none, [], "t"⟩)] "x" "3333" "display" =
      ([("1111", ⟨none, none, [], "t"⟩)],
       { success := false, error := some "Room not found" }, []) :=
  ⟨((reconnectRoom_cases [("1111", ⟨none, none, [], "t"⟩)] "x" "1111").2
      ⟨none, none, [], "t"⟩ rfl).1 rfl,
   ((reconnectRoom_cases [("1111", ⟨none, none, [], "t"⟩)] "x" "1111").2
      ⟨none, none, [], "t"⟩ rfl).2.2.1 rfl,
   ((reconnectRoom_cases [("2222", ⟨some "d0", some "c0", [], "t"⟩)] "x" "2222").2
      ⟨some "d0", some "c0", [], "t"⟩ rfl).2.1 "d0" rfl,
   ((reconnectRoom_cases [("2222", ⟨some "d0", some "c0", [], "t"⟩)] "x" "2222").2
      ⟨some "d0", some "c0", [], "t"⟩ rfl).2.2.2 "c0" rfl,
   (reconnectRoom_cases [("1111", ⟨none, none, [], "t"⟩)] "x" "3333").1 rfl "display"⟩

/-- Claim C10: a `reconnect-room` on an existing room whose `deviceType` is
neither `'display'` nor `'controller'` falls through both guards and lands in
the shared else-branch, so it acks `'Device type already connected'` even when
both role slots are vacant, and the store is left unchanged. -/
theorem reconnectRoom_unknown_deviceType (s : RoomStore) (sid roomId dt : String)
    (room : Room) (h : storeGet s roomId = some room)
    (hd : dt ≠ "display") (hc : dt ≠ "controller") :
    reconnectRoom s sid roomId dt =
      (s, { success := false, error := some "Device type already connected" }, []) := by
  simp [reconnectRoom, h, hd, hc]

/-- Witness for C10: `deviceType = "tablet"` on a room with both slots empty
still yields `Device type already connected`. -/
theorem reconnectRoom_unknown_deviceType_witness :
    reconnectRoom [("1111", ⟨none, none, [], "t"⟩)] "x" "1111" "tablet" =
      ([("1111", ⟨none, none, [], "t"⟩)],
       { success := false, error := some "Device type already connected" }, []) :=
  reconnectRoom_unknown_deviceType [("1111", ⟨none, none, [], "t"⟩)] "x" "1111"
    "tablet" ⟨none, none, [], "t"⟩ rfl (by decide) (by decide)

/-- Claim C4: every code `generateRoomCode` returns is the decimal string of a
number in `[1000, 9999]`, is 4 characters long, and is free in the Room Store
at the moment it is returned; consequently, after `create-room` stores its
allocated code, any later allocation (and hence any later `create-room`)
returns a different code while the first room is still active. -/
theorem generateRoomCode_fresh_and_distinct (s : RoomStore)
    (draws draws2 : Nat → Nat) (fuel fuel2 : Nat) (sid nowIso : String) :
    (∀ code, generateRoomCode s draws fuel = some code →
      storeHas s code = false ∧ code.length = 4 ∧
      ∃ n, 1000 ≤ n ∧ n ≤ 9999 ∧ code = Nat.repr n) ∧
    (∀ s' ack, createRoom s sid draws fuel nowIso = some (s', ack) →
      ∀ c1, ack.roomCode = some c1 →
        storeHas s' c1 = true ∧
        ∀ c2, generateRoomCode s' draws2 fuel2 = some c2 → c2 ≠ c1) ∧
    (∀ (t : RoomStore) (c c2 : String), storeHas t c = true →
      generateRoomCode t draws2 fuel2 = some c2 → c2 ≠ c) := by
  refine ⟨?_, ?_, ?_⟩
  case refine_3 =>
    intro t c c2 hc h2 he
    have hfree := (genCodeAux_spec t draws2 fuel2 0 c2 h2).1
    rw [he, hc] at hfree
    cases hfree
  · intro code h
    exact genCodeAux_spec s draws fuel 0 code h
  · intro s' ack h c1 hc1
    rw [createRoom] at h
    cases hgen : generateRoomCode s draws fuel with
    | none => rw [hgen] at h; cases h
    | some code =>
      rw [hgen] at h
      cases h
      simp only [Option.some.injEq] at hc1
      subst hc1
      have hkey : storeHas
          (storeSet s code ⟨some sid, none, [], nowIso⟩) code = true := by
        simp [storeHas, storeGet_storeSet_self]
      refine ⟨hkey, ?_⟩
      intro c2 h2 he
      have hfree := (genCodeAux_spec _ draws2 fuel2 0 c2 h2).1
      rw [he, hkey] at hfree
      cases hfree

/-- Witness for C4: with an empty store and draws `0, 0, ...`, the allocator
returns `"1000"`, which is 4 characters, free, and `Nat.repr 1000`; after
`create-room` stores it, a second allocation with the same draw stream skips
the collision and returns `"1001" ≠ "1000"`. -/
theorem generateRoomCode_fresh_and_distinct_witness :
    (storeHas ([] : RoomStore) "1000" = false ∧ ("1000" : String).length = 4 ∧
      ∃ n, 1000 ≤ n ∧ n ≤ 9999 ∧ "1000" = Nat.repr n) ∧
    (storeHas [("1000", ⟨some "disp", none, [], "t0"⟩)] "1000" = true ∧
      ∀ c2, generateRoomCode [("1000", ⟨some "disp", none, [], "t0"⟩)]
          (fun i => i) 2 = some c2 → c2 ≠ "1000") ∧
    ("1001" : String) ≠ "1000" :=
  ⟨(generateRoomCode_fresh_and_distinct [] (fun _ => 0) (fun i => i) 1 2
      "disp" "t0").1 "1000" rfl,
   (generateRoomCode_fresh_and_distinct [] (fun _ => 0) (fun i => i) 1 2
      "disp" "t0").2.1 [("1000", ⟨some "disp", none, [], "t0"⟩)]
      { success := true, roomCode := some "1000" } rfl "1000" rfl,
   (generateRoomCode_fresh_and_distinct [] (fun _ => 0) (fun i => i) 1 2
      "disp" "t0").2.2 [("1000", ⟨some "disp", none, [], "t0"⟩)]
      "1000" "1001" rfl rfl⟩

/-- Claim C9: the allocation loop of `generateRoomCode` re-draws on collision
with no retry bound.  Whenever the Room Store holds fewer than 9000 rooms a
free code exists, and any draw stream that reaches every residue within its
fuel budget makes the loop terminate with a free code; conversely, when every
one of the 9000 candidate codes is occupied, no amount of fuel ever produces a
code — the loop runs for ever. -/
theorem generateRoomCode_termination (s : RoomStore) (draws : Nat → Nat) (fuel : Nat) :
    (s.length < 9000 → (∀ d < 9000, ∃ j < fuel, draws j % 9000 = d) →
      ∃ code, generateRoomCode s draws fuel = some code ∧ storeHas s code = false) ∧
    ((∀ d < 9000, storeHas s (Nat.repr (1000 + d)) = true) →
      generateRoomCode s draws fuel = none) := by
  constructor
  · intro hsize hcover
    obtain ⟨d, hd, hfree⟩ := free_code_exists s hsize
    obtain ⟨j, hj, hdraw⟩ := hcover d hd
    have hfree' : storeHas s (Nat.repr (1000 + draws j % 9000)) = false := by
      rw [hdraw]; exact hfree
    exact genCodeAux_term s draws fuel 0 j (Nat.zero_le j) (by omega) hfree'
  · intro hsat
    exact genCodeAux_saturated s draws hsat fuel 0

/-- Witness for C9, first part: a singleton store occupying `"1000"`, the
identity draw stream (which covers every residue within fuel 9000) — the loop
terminates with a free code. -/
theorem generateRoomCode_termination_witness :
    ∃ code, generateRoomCode [("1000", ⟨some "disp", none, [], "t0"⟩)]
        (fun i => i) 9000 = some code ∧
      storeHas [("1000", ⟨some "disp", none, [], "t0"⟩)] code = false :=
  (generateRoomCode_termination [("1000", ⟨some "disp", none, [], "t0"⟩)]
      (fun i => i) 9000).1 (by decide)
    (by
      intro d hd
      exact ⟨d, hd, Nat.mod_eq_of_lt hd⟩)

/-- Counterexample to C5 as stated: on an existing room, `add-danger-zone`
supplying radius `0` and label `""` stores radius `5` and label
`"Danger Zone"` — the supplied values are not kept, because `data.radius || 5`
and `data.label || 'Danger Zone'` also replace falsy supplied values, not
only absent ones. -/
theorem addDangerZone_falsy_counterexample :
    (addDangerZone [("1234", ⟨some "disp", none, [], "t0"⟩)]
        ⟨"1234", ⟨0, 0, 0⟩, some 0, some ""⟩ 42 "t1").1 =
      [("1234", ⟨some "disp", none,
        [⟨"danger_42", "t1", AnnotationData.danger ⟨0, 0, 0⟩ 5 "Danger Zone"⟩], "t0"⟩)] ∧
    (5 : Int) ≠ 0 ∧ ("Danger Zone" : String) ≠ "" := by
  exact ⟨by decide, by decide, by decide⟩

/-- Claim C5 (amended): on an existing room, `add-danger-zone` appends one
danger annotation and broadcasts it; its radius is `5` when the radius field
is absent or `0`, and the supplied radius otherwise; its label is
`'Danger Zone'` when the label field is absent or empty, and the supplied
label otherwise (JS `||` treats `0` and `""` as absent). -/
theorem addDangerZone_default_policy (s : RoomStore) (d : DangerEvent)
    (nowMs : Nat) (nowIso : String) (room : Room)
    (h : storeGet s d.roomId = some room) :
    ∃ a : Annotation,
      addDangerZone s d nowMs nowIso =
        (storeSet s d.roomId { room with annotations := room.annotations ++ [a] },
         [⟨Target.room d.roomId, "annotation-added", Payload.ann a⟩]) ∧
      a.data = AnnotationData.danger d.position (jsOrInt d.radius 5)
        (jsOrStr d.label "Danger Zone") ∧
      (d.radius = none → jsOrInt d.radius 5 = 5) ∧
      (d.radius = some 0 → jsOrInt d.radius 5 = 5) ∧
      (∀ r : Int, d.radius = some r → r ≠ 0 → jsOrInt d.radius 5 = r) ∧
      (d.label = none → jsOrStr d.label "Danger Zone" = "Danger Zone") ∧
      (d.label = some "" → jsOrStr d.label "Danger Zone" = "Danger Zone") ∧
      (∀ l : String, d.label = some l → l ≠ "" → jsOrStr d.label "Danger Zone" = l) := by
  refine ⟨⟨"danger_" ++ Nat.repr nowMs, nowIso,
    AnnotationData.danger d.position (jsOrInt d.radius 5) (jsOrStr d.label "Danger Zone")⟩,
    by simp [addDangerZone, h], rfl, ?_, ?_, ?_, ?_, ?_, ?_⟩
  · intro he; simp [jsOrInt, he]
  · intro he; simp [jsOrInt, he]
  · intro r he hr; simp [jsOrInt, he, hr]
  · intro he; simp [jsOrStr, he]
  · intro he; simp [jsOrStr, he]
  · intro l he hl; simp [jsOrStr, he, hl]

/-- Witness for C5 (amended) at a concrete input: absent radius and label
fields yield the defaults 5 and `'Danger Zone'`. -/
theorem addDangerZone_default_policy_witness :
    ∃ a : Annotation,
      addDangerZone [("1234", ⟨some "disp", none, [], "t0"⟩)]
          ⟨"1234", ⟨1, 2, 3⟩, none, none⟩ 7 "t1" =
        (storeSet [("1234", ⟨some "disp", none, [], "t0"⟩)] "1234"
           ⟨some "disp", none, [a], "t0"⟩,
         [⟨Target.room "1234", "annotation-added", Payload.ann a⟩]) ∧
      a.data = AnnotationData.danger ⟨1, 2, 3⟩ (jsOrInt none 5)
        (jsOrStr none "Danger Zone") ∧
      ((none : Option Int) = none → jsOrInt none 5 = 5) ∧
      ((none : Option Int) = some 0 → jsOrInt none 5 = 5) ∧
      (∀ r : Int, (none : Option Int) = some r → r ≠ 0 → jsOrInt none 5 = r) ∧
      ((none : Option String) = none → jsOrStr none "Danger Zone" = "Danger Zone") ∧
      ((none : Option String) = some "" → jsOrStr none "Danger Zone" = "Danger Zone") ∧
      (∀ l : String, (none : Option String) = some l → l ≠ "" →
        jsOrStr none "Danger Zone" = l) := by
  exact addDangerZone_default_policy [("1234", ⟨some "disp", none, [], "t0"⟩)]
    ⟨"1234", ⟨1, 2, 3⟩, none, none⟩ 7 "t1" ⟨some "disp", none, [], "t0"⟩ rfl

/-- Claim C6: on an existing room, `remove-annotation` replaces the
annotation sequence by the order-preserving subsequence of annotations whose
id differs from the requested one, and broadcasts `annotation-removed` with
that id to the room; when no annotation carries the id, the store is left
exactly as it was, yet the event is still emitted. -/
theorem removeAnnotation_filters (s : RoomStore) (roomId annId : String)
    (room : Room) (h : storeGet s roomId = some room) :
    removeAnnotation s roomId annId =
      (storeSet s roomId
        { room with annotations := room.annotations.filter (fun a => a.id ≠ annId) },
       [⟨Target.room roomId, "annotation-removed", Payload.annId annId⟩]) ∧
    (room.annotations.filter (fun a => a.id ≠ annId)).Sublist room.annotations ∧
    (∀ a, a ∈ room.annotations.filter (fun a => a.id ≠ annId) ↔
      a ∈ room.annotations ∧ a.id ≠ annId) ∧
    ((∀ a ∈ room.annotations, a.id ≠ annId) →
      removeAnnotation s roomId annId =
        (s, [⟨Target.room roomId, "annotation-removed", Payload.annId annId⟩])) := by
  have h1 : removeAnnotation s roomId annId =
      (storeSet s roomId
        { room with annotations := room.annotations.filter (fun a => a.id ≠ annId) },
       [⟨Target.room roomId, "annotation-removed", Payload.annId annId⟩]) := by
    simp [ removeAnnotation, h]
  refine ⟨h1, List.filter_sublist _, ?_, ?_⟩
  · intro a
    simp [List.mem_filter]
  · intro hnone
    have hfix : room.annotations.filter (fun a => a.id ≠ annId) = room.annotations := by
      rw [List.filter_eq_self]
      intro a ha
      simpa using hnone a ha
    rw [h1, hfix]
    rw [storeSet_self s roomId room h]

/-- Witness for C6: removing the id of the first of two annotations keeps the
second, in place; removing an unknown id is a store no-op that still emits. -/
theorem removeAnnotation_filters_witness :
    removeAnnotation
        [("1234", ⟨some "disp", none,
          [⟨"danger_1", "t1", AnnotationData.danger ⟨0, 0, 0⟩ 5 "Danger Zone"⟩,
           ⟨"arrow_2", "t2", AnnotationData.arrow ⟨0, 0, 0⟩ ⟨0, 0, 1⟩ "Direction"⟩],
          "t0"⟩)] "1234" "nosuch" =
      ([("1234", ⟨some "disp", none,
          [⟨"danger_1", "t1", AnnotationData.danger ⟨0, 0, 0⟩ 5 "Danger Zone"⟩,
           ⟨"arrow_2", "t2", AnnotationData.arrow ⟨0, 0, 0⟩ ⟨0, 0, 1⟩ "Direction"⟩],
          "t0"⟩)],
       [⟨Target.room "1234", "annotation-removed", Payload.annId "nosuch"⟩]) := by
  exact (removeAnnotation_filters
    [("1234", ⟨some "disp", none,
      [⟨"danger_1", "t1", AnnotationData.danger ⟨0, 0, 0⟩ 5 "Danger Zone"⟩,
       ⟨"arrow_2", "t2", AnnotationData.arrow ⟨0, 0, 0⟩ ⟨0, 0, 1⟩ "Direction"⟩],
      "t0"⟩)] "1234" "nosuch"
    ⟨some "disp", none,
      [⟨"danger_1", "t1", AnnotationData.danger ⟨0, 0, 0⟩ 5 "Danger Zone"⟩,
       ⟨"arrow_2", "t2", AnnotationData.arrow ⟨0, 0, 0⟩ ⟨0, 0, 1⟩ "Direction"⟩],
      "t0"⟩ rfl).2.2.2 (by decide)

/-- Claim C7: after `clear-annotations` on an existing room the room's
annotation sequence is empty, `annotations-cleared` is broadcast, and with no
intervening additions a subsequent `join-room` acks `{success:true,
annotations:[]}` while any `reconnect-room` ack that carries an annotation
list carries the empty one. -/
theorem clearAnnotations_empties (s : RoomStore) (roomId sid dt : String)
    (room : Room) (h : storeGet s roomId = some room) :
    storeGet (clearAnnotations s roomId).1 roomId =
      some { room with annotations := [] } ∧
    (clearAnnotations s roomId).2 =
      [⟨Target.room roomId, "annotations-cleared", Payload.empty⟩] ∧
    (joinRoom (clearAnnotations s roomId).1 sid roomId).2.1 =
      { success := true, annotations := some [] } ∧
    (∀ l, (reconnectRoom (clearAnnotations s roomId).1 sid roomId dt).2.1.annotations
        = some l → l = []) := by
  have hclear : clearAnnotations s roomId =
      (storeSet s roomId { room with annotations := [] },
       [⟨Target.room roomId, "annotations-cleared", Payload.empty⟩]) := by
    simp [clearAnnotations, h]
  have h1 : storeGet (clearAnnotations s roomId).1 roomId =
      some { room with annotations := [] } := by
    rw [hclear]
    exact storeGet_storeSet_self ..
  refine ⟨h1, by rw [hclear], ?_, ?_⟩
  · rw [joinRoom_some _ sid roomId _ h1]
  · intro l hl
    simp only [reconnectRoom, h1] at hl
    split at hl
    · simp at hl
      exact hl
    · split at hl
      · simp at hl
        exact hl
      · simp at hl

/-- Witness for C7: clearing room `"1234"` (which held one annotation) leaves
it with `[]`, and both rejoin paths report the empty list. -/
theorem clearAnnotations_empties_witness :
    storeGet (clearAnnotations
        [("1234", ⟨some "disp", none,
          [⟨"danger_1", "t1", AnnotationData.danger ⟨0, 0, 0⟩ 5 "Danger Zone"⟩], "t0"⟩)]
        "1234").1 "1234" = some ⟨some "disp", none, [], "t0"⟩ ∧
    (joinRoom (clearAnnotations
        [("1234", ⟨some "disp", none,
          [⟨"danger_1", "t1", AnnotationData.danger ⟨0, 0, 0⟩ 5 "Danger Zone"⟩], "t0"⟩)]
        "1234").1 "ctl" "1234").2.1 =
      { success := true, annotations := some [] } := by
  refine ⟨?_, ?_⟩
  · exact (clearAnnotations_empties
      [("1234", ⟨some "disp", none,
        [⟨"danger_1", "t1", AnnotationData.danger ⟨0, 0, 0⟩ 5 "Danger Zone"⟩], "t0"⟩)]
      "1234" "ctl" "controller"
      ⟨some "disp", none,
        [⟨"danger_1", "t1", AnnotationData.danger ⟨0, 0, 0⟩ 5 "Danger Zone"⟩], "t0"⟩
      rfl).1
  · exact (clearAnnotations_empties
      [("1234", ⟨some "disp", none,
        [⟨"danger_1", "t1", AnnotationData.danger ⟨0, 0, 0⟩ 5 "Danger Zone"⟩], "t0"⟩)]
      "1234" "ctl" "controller"
      ⟨some "disp", none,
        [⟨"danger_1", "t1", AnnotationData.danger ⟨0, 0, 0⟩ 5 "Danger Zone"⟩], "t0"⟩
      rfl).2.2.1

/-- Claim C8: a display disconnect on an existing room clears only the
display slot — the room stays in the store with its controller binding,
annotations and `createdAt` intact, `display-disconnected` goes to the
controller exactly when one is bound, and every other room is untouched; the
controller disconnect is symmetric. -/
theorem disconnect_clears_only_role_slot (s : RoomStore) (rid : String)
    (room : Room) (h : storeGet s rid = some room) :
    disconnect s (some rid) (some "display") =
      (storeSet s rid { room with displaySocket := none },
       match room.controllerSocket with
       | some c => [⟨Target.sock (some c), "display-disconnected", Payload.empty⟩]
       | none => []) ∧
    storeGet (disconnect s (some rid) (some "display")).1 rid =
      some { displaySocket := none, controllerSocket := room.controllerSocket,
             annotations := room.annotations, createdAt := room.createdAt } ∧
    (∀ c, c ≠ rid → storeGet (disconnect s (some rid) (some "display")).1 c
      = storeGet s c) ∧
    disconnect s (some rid) (some "controller") =
      (storeSet s rid { room with controllerSocket := none },
       match room.displaySocket with
       | some d => [⟨Target.sock (some d), "controller-disconnected", Payload.empty⟩]
       | none => []) ∧
    storeGet (disconnect s (some rid) (some "controller")).1 rid =
      some { displaySocket := room.displaySocket, controllerSocket := none,
             annotations := room.annotations, createdAt := room.createdAt } ∧
    (∀ c, c ≠ rid → storeGet (disconnect s (some rid) (some "controller")).1 c
      = storeGet s c) := by
  have hD : disconnect s (some rid) (some "display") =
      (storeSet s rid { room with displaySocket := none },
       match room.controllerSocket with
       | some c => [⟨Target.sock (some c), "display-disconnected", Payload.empty⟩]
       | none => []) := by
    simp [disconnect, h]
  have hC : disconnect s (some rid) (some "controller") =
      (storeSet s rid { room with controllerSocket := none },
       match room.displaySocket with
       | some d => [⟨Target.sock (some d), "controller-disconnected", Payload.empty⟩]
       | none => []) := by
    simp [disconnect, h]
  refine ⟨hD, ?_, ?_, hC, ?_, ?_⟩
  · rw [hD]
    exact storeGet_storeSet_self ..
  · intro c hc
    rw [hD]
    exact storeGet_storeSet_ne s rid c _ hc
  · rw [hC]
    exact storeGet_storeSet_self ..
  · intro c hc
    rw [hC]
    exact storeGet_storeSet_ne s rid c _ hc

/-- Witness for C8: in a room with both roles bound, a display disconnect
leaves the controller binding and annotations in place and notifies the
controller; a controller disconnect does the symmetric thing. -/
theorem disconnect_clears_only_role_slot_witness :
    disconnect [("1234", ⟨some "disp", some "ctl", [], "t0"⟩)]
        (some "1234") (some "display") =
      ([("1234", ⟨none, some "ctl", [], "t0"⟩)],
       [⟨Target.sock (some "ctl"), "display-disconnected", Payload.empty⟩]) ∧
    disconnect [("1234", ⟨some "disp", some "ctl", [], "t0"⟩)]
        (some "1234") (some "controller") =
      ([("1234", ⟨some "disp", none, [], "t0"⟩)],
       [⟨Target.sock (some "disp"), "controller-disconnected", Payload.empty⟩]) := by
  refine ⟨?_, ?_⟩
  · exact (disconnect_clears_only_role_slot
      [("1234", ⟨some "disp", some "ctl", [], "t0"⟩)] "1234"
      ⟨some "disp", some "ctl", [], "t0"⟩ rfl).1
  · exact (disconnect_clears_only_role_slot
      [("1234", ⟨some "disp", some "ctl", [], "t0"⟩)] "1234"
      ⟨some "disp", some "ctl", [], "t0"⟩ rfl).2.2.2.1

end ARMine
